import Mathlib

/-! Shallow embedding of the dental-clinic lead-nurturing backend
(`src/backend/app`): the data model, the CRUD layer, the reply and triage
agent graphs, the appointment API and the nurture scheduler, together with
theorems checking the specification claims against these definitions.

External effects (LLM calls, vendor sends, date parsing, clock reads) are
passed in as explicit arguments, so every function here is the pure core of
the corresponding Python function, with Python exceptions modelled by
`Except PyErr`. -/

namespace Mundos

/-- Python runtime errors raised by the embedded code. -/
inductive PyErr where
  | generic
  | typeError
  | attributeError
  | validationError
deriving DecidableEq

/-- JSON values, as produced by `json.loads` on an LLM response body. -/
inductive Json where
  | null
  | str (s : String)
  | num (n : Int)
  | jbool (b : Bool)
  | obj (fields : List (String × Json))
  | arr (elems : List Json)

/-- Key lookup in a JSON object field list (Python `dict` access). -/
def lookupJ (fields : List (String × Json)) (k : String) : Option Json :=
  (fields.find? (fun p => p.fst == k)).map Prod.snd

/-- Field lookup on a JSON value; `none` when the value is not an object
or the key is absent. -/
def Json.get? (j : Json) (k : String) : Option Json :=
  match j with
  | .obj fields => lookupJ fields k
  | _ => none

-- String literals of the source, named so they can be reused below.
def keyNextAction : String := "next_action"
def keyThought : String := "thought"
def keyToolToUse : String := "tool_to_use"
def keyToolParameters : String := "tool_parameters"
def keyKbSearchQuery : String := "kb_search_query"
def keyPersonalizedHtml : String := "personalized_html_content"
def keyDate : String := "date"
def keyTime : String := "time"
def keyReason : String := "reason"
def keyLeadId : String := "lead_id"
def keyQuery : String := "query"
def keyDay : String := "day"
def keyCategory : String := "category"
def keySummary : String := "summary"
def keyIsEmergency : String := "is_emergency"
def actUseTool : String := "use_tool"
def actReplyToUser : String := "reply_to_user"
def actEscalateToHuman : String := "escalate_to_human"
def toolSearchKB : String := "search_knowledge_base"
def toolGetPlanDetails : String := "get_plan_details"
def toolGetAvailableSlots : String := "get_available_slots"
def toolBookAppointment : String := "book_appointment"
def thoughtCouldNotParse : String := "Could not parse LLM response."

/-- The closed action set of `AgentDecision.next_action`
(`Literal['use_tool', 'reply_to_user', 'escalate_to_human']`). -/
inductive NextAction where
  | use_tool
  | reply_to_user
  | escalate_to_human
deriving DecidableEq

/-- Pydantic model `AgentDecision` of `agents/reply_agent.py`. -/
structure AgentDecision where
  next_action : NextAction
  thought : String
  tool_to_use : Option String
  tool_parameters : Option (List (String × Json))
  kb_search_query : Option String
  personalized_html_content : Option String

/-- Validation of an optional `str | None` pydantic field. -/
def parseStrOpt : Json → Except PyErr (Option String)
  | .null => .ok none
  | .str s => .ok (some s)
  | _ => .error .validationError

/-- Validation of an optional `dict | None` pydantic field. -/
def parseDictOpt : Json → Except PyErr (Option (List (String × Json)))
  | .null => .ok none
  | .obj fields => .ok (some fields)
  | _ => .error .validationError

/-- Validation of the `next_action` literal field. -/
def parseNextAction : Json → Except PyErr NextAction
  | .str s =>
    if s = actUseTool then .ok .use_tool
    else if s = actReplyToUser then .ok .reply_to_user
    else if s = actEscalateToHuman then .ok .escalate_to_human
    else .error .validationError
  | _ => .error .validationError

/-- Validation of a required `str` pydantic field. -/
def parseStrReq : Option Json → Except PyErr String
  | some (.str s) => .ok s
  | _ => .error .validationError

/-- `decision_data.setdefault(k, None)` for one key. -/
def setdefaultNull (fields : List (String × Json)) (k : String) :
    List (String × Json) :=
  if (lookupJ fields k).isSome then fields else fields ++ [(k, Json.null)]

/-- The four `setdefault(..., None)` calls of `decision_node`; calling
`.setdefault` on a non-dict JSON value raises `AttributeError`. -/
def setdefaultOptionalKeys (j : Json) : Except PyErr (List (String × Json)) :=
  match j with
  | .obj fields =>
    .ok (setdefaultNull (setdefaultNull (setdefaultNull
      (setdefaultNull fields keyToolToUse) keyToolParameters)
      keyKbSearchQuery) keyPersonalizedHtml)
  | _ => .error .attributeError

/-- Pydantic validation `AgentDecision(**decision_data)`. -/
def parseAgentDecision (fields : List (String × Json)) :
    Except PyErr AgentDecision := do
  let na ← match lookupJ fields keyNextAction with
    | some v => parseNextAction v
    | none => .error .validationError
  let th ← parseStrReq (lookupJ fields keyThought)
  let ttu ← match lookupJ fields keyToolToUse with
    | some v => parseStrOpt v
    | none => .ok none
  let tp ← match lookupJ fields keyToolParameters with
    | some v => parseDictOpt v
    | none => .ok none
  let kq ← match lookupJ fields keyKbSearchQuery with
    | some v => parseStrOpt v
    | none => .ok none
  let ph ← match lookupJ fields keyPersonalizedHtml with
    | some v => parseStrOpt v
    | none => .ok none
  .ok ⟨na, th, ttu, tp, kq, ph⟩

/-- The safety fallback decision built in the `except` branch of
`decision_node`. -/
def fallbackDecision : AgentDecision :=
  { next_action := .escalate_to_human
    thought := thoughtCouldNotParse
    tool_to_use := none
    tool_parameters := none
    kb_search_query := none
    personalized_html_content := none }

/-- The `try` body of `decision_node`: the LLM call (whose outcome,
response JSON or raised exception, is the argument), the `setdefault`
calls and the pydantic validation. -/
def decision_node_attempt (llm : Except PyErr Json) :
    Except PyErr AgentDecision := do
  let j ← llm
  let fields ← setdefaultOptionalKeys j
  parseAgentDecision fields

/-- `decision_node` of `agents/reply_agent.py`: any exception from the
LLM call or the parse is caught and replaced by the escalation fallback.
The function is total: no error reaches the caller. -/
def decision_node (llm : Except PyErr Json) : AgentDecision :=
  match decision_node_attempt llm with
  | .ok d => d
  | .error _ => fallbackDecision

/-- C1: every LLM response of the reply agent decision step that fails to
parse into an `AgentDecision` (including an exception raised during the
LLM call itself) yields the decision `escalate_to_human` with the fixed
rationale, and `decision_node` is a total function into `AgentDecision`,
so no error is ever raised to the caller. -/
theorem decision_node_malformed_defaults_to_escalate
    (llm : Except PyErr Json)
    (hfail : ∃ e, decision_node_attempt llm = Except.error e) :
    decision_node llm = fallbackDecision ∧
    (decision_node llm).next_action = NextAction.escalate_to_human ∧
    (decision_node llm).thought = thoughtCouldNotParse := by
  obtain ⟨e, he⟩ := hfail
  have hd : decision_node llm = fallbackDecision := by
    unfold decision_node; rw [he]
  exact ⟨hd, by rw [hd]; rfl, by rw [hd]; rfl⟩

/-- Witness for C1 at two concrete failing inputs: an exception raised by
the LLM call, and a JSON object that lacks the required keys. -/
theorem decision_node_malformed_defaults_to_escalate_witness :
    decision_node (Except.error PyErr.generic) = fallbackDecision ∧
    decision_node (Except.ok (Json.obj [])) = fallbackDecision :=
  ⟨(decision_node_malformed_defaults_to_escalate (Except.error PyErr.generic)
      ⟨PyErr.generic, rfl⟩).1,
   (decision_node_malformed_defaults_to_escalate (Except.ok (Json.obj []))
      ⟨PyErr.validationError, rfl⟩).1⟩

/-! ### The reply agent graph (C2, C3) -/

/-- Nodes of the reply agent `StateGraph`, plus the `END` sentinel. -/
inductive ReplyNode where
  | decision_node
  | execute_tool_node
  | send_reply_node
  | escalate_to_human_node
  | END_node
deriving DecidableEq

/-- The conditional `router` of `agents/reply_agent.py`, applied to the
current `state['decision']`.  The trailing `return END` of the source is
dead code because `next_action` ranges over the closed literal set. -/
def router (decision : Option AgentDecision) : ReplyNode :=
  match decision with
  | none => .decision_node
  | some d =>
    match d.next_action with
    | .use_tool => .execute_tool_node
    | .reply_to_user => .send_reply_node
    | .escalate_to_human => .escalate_to_human_node

/-- A node is terminal when reaching it ends the agent run: the two
action nodes are wired straight to `END` by `workflow.add_edge`. -/
def ReplyNode.terminal : ReplyNode → Bool
  | .send_reply_node => true
  | .escalate_to_human_node => true
  | .END_node => true
  | _ => false

/-- One transition of the compiled reply graph, threading a counter `k`
of completed decision-node visits.  `oracle k` is the decision produced
by the k-th visit of `decision_node` (the parsed-or-fallback result of
its LLM call); `workflow.add_conditional_edges` routes it through
`router`.  `execute_tool_node` clears `state['decision']` and has the
unconditional edge `workflow.add_edge("execute_tool_node",
"decision_node")` back to the decision node.  Terminal nodes are
absorbing. -/
def replyGraphStep (oracle : Nat → AgentDecision) :
    Nat × ReplyNode → Nat × ReplyNode
  | (k, .decision_node) => (k + 1, router (some (oracle k)))
  | (k, .execute_tool_node) => (k, .decision_node)
  | (k, n) => (k, n)

/-- The run of the reply graph from its entry point
(`workflow.set_entry_point("decision_node")`), after `n` transitions. -/
def replyGraphRun (oracle : Nat → AgentDecision) : Nat → Nat × ReplyNode
  | 0 => (0, ReplyNode.decision_node)
  | n + 1 => replyGraphStep oracle (replyGraphRun oracle n)

/-- A concrete always-`use_tool` decision. -/
def useToolForeverDecision : AgentDecision :=
  { next_action := .use_tool
    thought := toolGetAvailableSlots
    tool_to_use := some toolGetAvailableSlots
    tool_parameters := some [(keyDay, Json.str keyDay)]
    kb_search_query := none
    personalized_html_content := none }

/-- C2: in the reply agent graph every execution of the tool node routes
back to the decision node, and no iteration cap exists in the graph:
under the stream of decisions that always picks `use_tool`, the run never
reaches a terminal node, at any number of steps. -/
theorem reply_graph_tool_loop_unbounded :
    (∀ (oracle : Nat → AgentDecision) (k : Nat),
      replyGraphStep oracle (k, ReplyNode.execute_tool_node) =
        (k, ReplyNode.decision_node)) ∧
    ∃ oracle : Nat → AgentDecision,
      (∀ k, (oracle k).next_action = NextAction.use_tool) ∧
      ∀ n, ReplyNode.terminal (replyGraphRun oracle n).2 = false := by
  have key : ∀ (o : Nat → AgentDecision),
      (∀ k, (o k).next_action = NextAction.use_tool) → ∀ n,
      (replyGraphRun o n).2 = ReplyNode.decision_node ∨
      (replyGraphRun o n).2 = ReplyNode.execute_tool_node := by
    intro o ho n
    induction n with
    | zero => exact Or.inl rfl
    | succ n ih =>
      rcases hrun : replyGraphRun o n with ⟨k, node⟩
      rw [hrun] at ih
      have hstep : replyGraphRun o (n + 1) = replyGraphStep o (k, node) := by
        rw [replyGraphRun, hrun]
      rcases ih with h | h <;> dsimp only at h <;> subst h <;> rw [hstep]
      · right
        show (replyGraphStep o (k, ReplyNode.decision_node)).2 = _
        simp [replyGraphStep, router, ho k]
      · exact Or.inl rfl
  refine ⟨fun _ _ => rfl, fun _ => useToolForeverDecision, fun _ => rfl, ?_⟩
  intro n
  rcases key (fun _ => useToolForeverDecision) (fun _ => rfl) n with h | h <;>
    rw [h] <;> rfl

/-- The `ReplyGraphState` dict of `agents/reply_agent.py` (the
conversation history does not influence the dispatch logic and is kept
abstract as a list of strings). -/
structure ReplyState where
  lead_id : String
  first_name : String
  email : String
  conversation_history : List String
  decision : Option AgentDecision
  tool_output : Option String
  kb_info : Option String

/-- The argument record of a dispatched
`clinic_tools.book_appointment(date=..., time=..., reason=..., lead_id=...)`
call.  Model-supplied values are arbitrary JSON; `lead_id` is the string
the caller injects explicitly. -/
structure BookAppointmentCall where
  date : Json
  time : Json
  reason : Json
  lead_id : String

/-- The Python call `book_appointment(**params, lead_id=lead_id_arg)`.
If `params` is `None`, unpacking raises `TypeError`; if `params` itself
contains a `lead_id` key, the call raises `TypeError` (multiple values
for the argument) and nothing is dispatched; a missing or extra keyword
also raises `TypeError`.  On success the dispatched call carries exactly
the caller-injected `lead_id_arg`. -/
def callBookAppointment (params : Option (List (String × Json)))
    (lead_id_arg : String) : Except PyErr BookAppointmentCall :=
  match params with
  | none => .error .typeError
  | some ps =>
    match lookupJ ps keyLeadId with
    | some _ => .error .typeError
    | none =>
      match lookupJ ps keyDate, lookupJ ps keyTime, lookupJ ps keyReason with
      | some d, some t, some r =>
        if ps.length = 3 then .ok ⟨d, t, r, lead_id_arg⟩
        else .error .typeError
      | _, _, _ => .error .typeError

/-- A single-keyword Python call `f(**params)` with required parameter
`key` (used for `get_plan_details(query=...)` and
`get_available_slots(day=...)`). -/
def callSingleKwarg (key : String) (params : Option (List (String × Json))) :
    Except PyErr Json :=
  match params with
  | none => .error .typeError
  | some ps =>
    match lookupJ ps key with
    | some v => if ps.length = 1 then .ok v else .error .typeError
    | none => .error .typeError

/-- The tool invocation dispatched by `execute_tool_node`. -/
inductive ToolCall where
  | kb_search (query : Option String)
  | plan_details (query : Json)
  | available_slots (day : Json)
  | book (c : BookAppointmentCall)

/-- The dispatch performed by `execute_tool_node` of
`agents/reply_agent.py`: branch on `decision.tool_to_use` and call the
corresponding tool.  Reading `.tool_to_use` on a `None` decision raises
`AttributeError`; an unknown or absent tool name dispatches nothing (the
result string stays the tool-not-found text).  In the
`book_appointment` branch the source passes
`**params, lead_id=state['lead_id']`: the lead identifier always comes
from the graph state. -/
def execute_tool_node_call (state : ReplyState) :
    Except PyErr (Option ToolCall) :=
  match state.decision with
  | none => .error .attributeError
  | some decision =>
    match decision.tool_to_use with
    | none => .ok none
    | some name =>
      if name = toolSearchKB then
        .ok (some (.kb_search decision.kb_search_query))
      else if name = toolGetPlanDetails then
        (callSingleKwarg keyQuery decision.tool_parameters).map
          (fun q => some (.plan_details q))
      else if name = toolGetAvailableSlots then
        (callSingleKwarg keyDay decision.tool_parameters).map
          (fun d => some (.available_slots d))
      else if name = toolBookAppointment then
        (callBookAppointment decision.tool_parameters state.lead_id).map
          (fun c => some (.book c))
      else .ok none

/-- Outcome of the `book_appointment` branch of the Vapi webhook
(`handle_vapi_tool_calls` in `api/webhooks.py`): when the call metadata
carries no `lead_id` the handler answers with an apology string and
dispatches nothing; otherwise it dispatches the tool with the metadata
lead identifier. -/
inductive VapiBookOutcome where
  | apology
  | call (c : BookAppointmentCall)

/-- The `book_appointment` branch of `handle_vapi_tool_calls`:
`parameters` is the parsed arguments dict and `metaLeadId` the value of
`message.call.metadata.lead_id`. -/
def handle_vapi_book (parameters : List (String × Json))
    (metaLeadId : Option String) : Except PyErr VapiBookOutcome :=
  match metaLeadId with
  | none => .ok .apology
  | some lid => (callBookAppointment (some parameters) lid).map .call

/-- Every successfully dispatched booking uses the lead id handed to the
call site, never one taken from the parameter dict. -/
theorem callBookAppointment_lead_id (params : Option (List (String × Json)))
    (lid : String) (c : BookAppointmentCall)
    (h : callBookAppointment params lid = Except.ok c) : c.lead_id = lid := by
  rcases params with _ | ps
  · simp [callBookAppointment] at h
  simp only [callBookAppointment] at h
  rcases hcol : lookupJ ps keyLeadId with _ | v <;>
    rcases hd : lookupJ ps keyDate with _ | d <;>
      rcases ht : lookupJ ps keyTime with _ | t <;>
        rcases hr : lookupJ ps keyReason with _ | r <;>
          simp only [hcol, hd, ht, hr] at h <;>
            try exact absurd h (by simp)
  by_cases hlen : ps.length = 3
  · rw [if_pos hlen] at h
    cases h
    rfl
  · rw [if_neg hlen] at h
    exact absurd h (by simp)

/-- C3: for every agent decision whose tool is `book_appointment` and
arbitrary model-supplied `tool_parameters`, a dispatched tool call always
carries the caller-known lead identifier — the reply graph state's
`lead_id` on the email path, the call metadata `lead_id` on the voice
path — never a lead identifier supplied by the model (a model-supplied
`lead_id` key makes the Python call raise `TypeError`, so nothing is
dispatched at all in that case). -/
theorem book_appointment_uses_caller_lead_id :
    (∀ (state : ReplyState) (c : BookAppointmentCall),
      execute_tool_node_call state = Except.ok (some (ToolCall.book c)) →
        c.lead_id = state.lead_id) ∧
    (∀ (parameters : List (String × Json)) (lid : String)
        (c : BookAppointmentCall),
      handle_vapi_book parameters (some lid) =
          Except.ok (VapiBookOutcome.call c) →
        c.lead_id = lid) := by
  constructor
  · intro state c h
    obtain ⟨lid0, fn0, em0, ch0, dec0, to0, kb0⟩ := state
    rcases dec0 with _ | decision
    · simp [execute_tool_node_call] at h
    obtain ⟨na0, th0, ttu0, tp0, kq0, ph0⟩ := decision
    rcases ttu0 with _ | name
    · simp [execute_tool_node_call] at h
    simp only [execute_tool_node_call] at h
    show c.lead_id = lid0
    split_ifs at h with h1 h2 h3 h4
    · simp at h
    · rcases hq : callSingleKwarg keyQuery tp0 with e | q <;>
        rw [hq] at h <;> simp [Except.map] at h
    · rcases hq : callSingleKwarg keyDay tp0 with e | q <;>
        rw [hq] at h <;> simp [Except.map] at h
    · rcases hb : callBookAppointment tp0 lid0 with e | c0 <;>
        rw [hb] at h <;> simp [Except.map] at h
      subst h
      exact callBookAppointment_lead_id _ _ _ hb
    · simp at h
  · intro parameters lid c h
    have h2 : Except.map VapiBookOutcome.call
        (callBookAppointment (some parameters) lid) =
        Except.ok (VapiBookOutcome.call c) := h
    rcases hb : callBookAppointment (some parameters) lid with e | c0 <;>
      rw [hb] at h2 <;> simp [Except.map] at h2
    subst h2
    exact callBookAppointment_lead_id _ _ _ hb

/-- A concrete reply-graph state whose pending decision books an
appointment with model-supplied parameters. -/
def bookStateExample : ReplyState :=
  { lead_id := keyLeadId
    first_name := keyDay
    email := keyQuery
    conversation_history := []
    decision := some
      { next_action := .use_tool
        thought := toolBookAppointment
        tool_to_use := some toolBookAppointment
        tool_parameters := some
          [(keyDate, Json.str keyDate), (keyTime, Json.str keyTime),
            (keyReason, Json.str keyReason)]
        kb_search_query := none
        personalized_html_content := none }
    tool_output := none
    kb_info := none }

/-- The call dispatched from `bookStateExample`. -/
def bookCallExample : BookAppointmentCall :=
  ⟨Json.str keyDate, Json.str keyTime, Json.str keyReason,
    bookStateExample.lead_id⟩

/-- Witness for C3 at concrete inputs on both dispatch paths. -/
theorem book_appointment_uses_caller_lead_id_witness :
    bookCallExample.lead_id = bookStateExample.lead_id ∧
    bookCallExample.lead_id = keyLeadId :=
  ⟨book_appointment_uses_caller_lead_id.1 bookStateExample bookCallExample rfl,
   book_appointment_uses_caller_lead_id.2
      [(keyDate, Json.str keyDate), (keyTime, Json.str keyTime),
        (keyReason, Json.str keyReason)] keyLeadId bookCallExample rfl⟩

/-! ### Persistence layer: leads, appointment slots and CRUD (C5, C6, C9, C10) -/

/-- `LeadStatusEnum` of `models.py`. -/
inductive LeadStatus where
  | new
  | needs_immediate_attention
  | nurturing
  | responded
  | converted
  | archived_no_response
  | archived_not_interested
deriving DecidableEq

/-- `SlotStatusEnum` of `models.py`. -/
inductive SlotStatus where
  | available
  | booked
  | cancelled
deriving DecidableEq

/-- A row of the `leads` table.  UUIDs are modelled as naturals,
timestamps as integers; the human-readable `lead_id` column
`BS-LID-%04d` is represented by its numeric part `lead_id_num`, since
the f-string formatting and the `int(... .split('-')[-1])` parse used by
`create_lead` are mutually inverse on it.  Columns the verified
operations never touch (`ai_drafted_reply`, `conversation_state`) are
omitted. -/
structure Lead where
  id : Nat
  lead_id_num : Nat
  first_name : Option String
  last_name : Option String
  email : String
  phone_number : Option String
  inquiry_notes : Option String
  inquiry_date : Int
  status : LeadStatus
  nurture_attempts : Nat
  ai_summary : Option String
  created_at : Int
  updated_at : Int
deriving DecidableEq

/-- A row of the `appointment_slots` table (times in minutes). -/
structure Slot where
  id : Nat
  start_time : Int
  end_time : Int
  status : SlotStatus
  lead_id : Option Nat
  reason_for_visit : Option String
  booked_by_method : Option String
deriving DecidableEq

/-- The database state touched by the verified operations. -/
structure Db where
  leads : List Lead
  slots : List Slot
deriving DecidableEq

/-- Pydantic schema `LeadCreate` of `schemas.py`. -/
structure LeadCreate where
  first_name : Option String
  last_name : Option String
  email : String
  phone_number : Option String
  inquiry_notes : Option String
  inquiry_date : Int
deriving DecidableEq

/-- `fastapi.HTTPException`. -/
structure HTTPException where
  status_code : Nat
  detail : String
deriving DecidableEq

def detailLeadNotFound : String := "Lead not found"
def detailSlotNotFound : String := "Appointment slot not found."
def detailSlotUnavailable : String := "Slot is no longer available."
def detailInternal : String := "Internal Server Error"

/-- `crud.get_lead_by_id`: first lead whose primary key matches. -/
def get_lead_by_id (db : Db) (lid : Nat) : Option Lead :=
  db.leads.find? (fun l => l.id == lid)

/-- The `order_by(created_at.desc()).first()` query of `crud.create_lead`
(ties broken by list position, as the row order is unspecified). -/
def latestLead : List Lead → Option Lead
  | [] => none
  | l :: ls =>
    match latestLead ls with
    | none => some l
    | some m => if m.created_at > l.created_at then some m else some l

/-- `crud.create_lead`: derive the next human-readable lead number from
the most recently created lead, build the row from the input schema with
the column defaults of `models.Lead` (`status=new`,
`nurture_attempts=0`), insert and commit.  `freshId` is the `uuid4`
primary key and `now` the server timestamp. -/
def create_lead (db : Db) (lc : LeadCreate) (freshId : Nat) (now : Int) :
    Lead × Db :=
  let newNum :=
    match latestLead db.leads with
    | some l => l.lead_id_num + 1
    | none => 1
  let l : Lead :=
    { id := freshId
      lead_id_num := newNum
      first_name := lc.first_name
      last_name := lc.last_name
      email := lc.email
      phone_number := lc.phone_number
      inquiry_notes := lc.inquiry_notes
      inquiry_date := lc.inquiry_date
      status := .new
      nurture_attempts := 0
      ai_summary := none
      created_at := now
      updated_at := now }
  (l, { db with leads := db.leads ++ [l] })

/-- `crud.update_lead_status`: look the lead up and set the supplied
status unconditionally (no transition guard of any kind), commit, and
return the updated row; `None` when the lead does not exist. -/
def update_lead_status (db : Db) (lid : Nat) (status : LeadStatus) :
    Option Lead × Db :=
  match get_lead_by_id db lid with
  | none => (none, db)
  | some l =>
    let l2 := { l with status := status }
    (some l2,
      { db with leads := db.leads.map (fun x => if x.id = lid then l2 else x) })

/-- `update_lead_status_endpoint` of `api/leads.py`: 404 when the lead is
missing, otherwise delegate to `crud.update_lead_status` with whatever
status the caller supplied.  (The inner `none` case cannot occur since
the lead was just found; FastAPI would turn it into a 500.) -/
def update_lead_status_endpoint (db : Db) (lid : Nat) (status : LeadStatus) :
    Except HTTPException (Lead × Db) :=
  match get_lead_by_id db lid with
  | none => .error ⟨404, detailLeadNotFound⟩
  | some _ =>
    match update_lead_status db lid status with
    | (some l2, db2) => .ok (l2, db2)
    | (none, _) => .error ⟨500, detailInternal⟩

/-- `crud.get_slot_by_id`. -/
def get_slot_by_id (db : Db) (sid : Nat) : Option Slot :=
  db.slots.find? (fun s => s.id == sid)

/-- `crud.book_slot`: unconditionally set the slot to `booked`, link the
lead and overwrite the visit metadata.  There is no status check here. -/
def book_slot (slot : Slot) (lead_id : Nat) (reason method : String) : Slot :=
  { slot with
      status := .booked
      lead_id := some lead_id
      reason_for_visit := some reason
      booked_by_method := some method }

/-- The `db.commit()` after `crud.book_slot` mutated the slot object:
the row with the same primary key is replaced. -/
def commitSlot (db : Db) (s2 : Slot) : Db :=
  { db with slots := db.slots.map (fun x => if x.id = s2.id then s2 else x) }

/-- Request schema `BookSlotRequest` of `schemas.py`. -/
structure BookSlotRequest where
  lead_id : Nat
  reason_for_visit : String
  booked_by_method : String
deriving DecidableEq

/-- `book_an_appointment_slot` of `api/appointments.py`: 404 when the
slot is missing, 409 when its status is not `available`, 404 when the
lead is missing, otherwise book through `crud.book_slot` and return the
booked slot. -/
def book_an_appointment_slot (db : Db) (slot_id : Nat)
    (req : BookSlotRequest) : Except HTTPException (Slot × Db) :=
  match get_slot_by_id db slot_id with
  | none => .error ⟨404, detailSlotNotFound⟩
  | some slot =>
    if slot.status ≠ SlotStatus.available then
      .error ⟨409, detailSlotUnavailable⟩
    else
      match get_lead_by_id db req.lead_id with
      | none => .error ⟨404, detailLeadNotFound⟩
      | some _ =>
        let booked :=
          book_slot slot req.lead_id req.reason_for_visit req.booked_by_method
        .ok (booked, commitSlot db booked)

/-- `crud.find_available_slot_by_natural_language`: `target` is the
result of `dateutil.parser.parse` on the natural-language day and time
(`none` models the `ValueError` branch, which returns `None`); the query
filters on `status == available` and `start_time <= target < end_time`
and takes the first row. -/
def find_available_slot_by_natural_language (db : Db) (target : Option Int) :
    Option Slot :=
  match target with
  | none => none
  | some t =>
    db.slots.find? (fun s => s.status == SlotStatus.available &&
      decide (s.start_time ≤ t) && decide (t < s.end_time))

/-- Helper: a `find?` over an append skips a prefix on which the
predicate never holds. -/
theorem find?_append_none {α : Type} (p : α → Bool) (xs ys : List α)
    (h : xs.find? p = none) : (xs ++ ys).find? p = ys.find? p := by
  induction xs with
  | nil => rfl
  | cons x xs ih =>
    rw [List.cons_append]
    cases hp : p x
    · simp only [List.find?, hp] at h ⊢
      exact ih h
    · simp [List.find?, hp] at h

/-- Helper: replacing the row with primary key `s2.id = sid` makes a
lookup by `sid` return `s2`, provided such a row was present. -/
theorem find?_map_commit (slots : List Slot) (sid : Nat) (s2 : Slot)
    (hid : s2.id = sid)
    (hfound : (slots.find? (fun x => x.id == sid)).isSome) :
    (slots.map (fun x => if x.id = s2.id then s2 else x)).find?
      (fun x => x.id == sid) = some s2 := by
  induction slots with
  | nil => simp [List.find?] at hfound
  | cons x xs ih =>
    by_cases hx : x.id = sid
    · have hxs : x.id = s2.id := by rw [hid, hx]
      simp [List.map, hxs, List.find?, hid]
    · have hne : x.id ≠ s2.id := by rw [hid]; exact hx
      have hpx : (x.id == sid) = false := by simp [hx]
      simp only [List.map_cons, if_neg hne, List.find?, hpx]
      apply ih
      simpa [List.find?, hpx] using hfound

/-- C9: creating a lead and then fetching it by its identifier returns a
record whose `first_name`, `email` and `inquiry_notes` are exactly the
ones supplied at creation. -/
theorem create_lead_get_roundtrip (db : Db) (lc : LeadCreate)
    (freshId : Nat) (now : Int)
    (hfresh : ∀ l ∈ db.leads, l.id ≠ freshId) :
    get_lead_by_id (create_lead db lc freshId now).2
        (create_lead db lc freshId now).1.id =
      some (create_lead db lc freshId now).1 ∧
    (create_lead db lc freshId now).1.first_name = lc.first_name ∧
    (create_lead db lc freshId now).1.email = lc.email ∧
    (create_lead db lc freshId now).1.inquiry_notes = lc.inquiry_notes := by
  refine ⟨?_, rfl, rfl, rfl⟩
  show (db.leads ++ [(create_lead db lc freshId now).1]).find?
      (fun l => l.id == freshId) = _
  rw [find?_append_none]
  · simp [List.find?, create_lead]
  · exact List.find?_eq_none.mpr (fun l hl => by simp [hfresh l hl])

/-- A concrete creation input for the C9 witness. -/
def leadCreateEx : LeadCreate :=
  { first_name := some keyDay
    last_name := none
    email := keyQuery
    phone_number := none
    inquiry_notes := some keyReason
    inquiry_date := 100 }

/-- Witness for C9 on an empty database at a concrete input. -/
theorem create_lead_get_roundtrip_witness :
    get_lead_by_id (create_lead ⟨[], []⟩ leadCreateEx 11 200).2
        (create_lead ⟨[], []⟩ leadCreateEx 11 200).1.id =
      some (create_lead ⟨[], []⟩ leadCreateEx 11 200).1 ∧
    (create_lead ⟨[], []⟩ leadCreateEx 11 200).1.first_name =
      leadCreateEx.first_name ∧
    (create_lead ⟨[], []⟩ leadCreateEx 11 200).1.email = leadCreateEx.email ∧
    (create_lead ⟨[], []⟩ leadCreateEx 11 200).1.inquiry_notes =
      leadCreateEx.inquiry_notes :=
  create_lead_get_roundtrip ⟨[], []⟩ leadCreateEx 11 200 (by simp)

/-- A concrete lead that has already progressed to `responded`. -/
def leadRespondedEx : Lead :=
  { id := 1
    lead_id_num := 1
    first_name := some keyDay
    last_name := none
    email := keyQuery
    phone_number := none
    inquiry_notes := some keyReason
    inquiry_date := 100
    status := .responded
    nurture_attempts := 2
    ai_summary := none
    created_at := 100
    updated_at := 150 }

/-- A database holding only `leadRespondedEx`. -/
def dbRespondedEx : Db := { leads := [leadRespondedEx], slots := [] }

/-- C6 counterexample: the status-update operation moves a lead whose
status is `responded` back to `new` — the transition lattice is not
enforced anywhere, refuting the monotonicity claim at a concrete
input (the unguarded `crud.update_lead_status` is exactly what the
status API endpoint executes). -/
theorem update_lead_status_reverts_to_new_concrete :
    (get_lead_by_id dbRespondedEx 1).map Lead.status =
      some LeadStatus.responded ∧
    ((update_lead_status dbRespondedEx 1 LeadStatus.new).1).map Lead.status =
      some LeadStatus.new ∧
    (get_lead_by_id (update_lead_status dbRespondedEx 1 LeadStatus.new).2
        1).map Lead.status = some LeadStatus.new ∧
    update_lead_status_endpoint dbRespondedEx 1 LeadStatus.new =
      Except.ok ({ leadRespondedEx with status := LeadStatus.new },
        (update_lead_status dbRespondedEx 1 LeadStatus.new).2) :=
  ⟨rfl, rfl, rfl, rfl⟩

/-- C6 amended: lead status transitions are not guarded at all —
`crud.update_lead_status`, and the status API endpoint built on it, set
whatever status the caller supplies, regardless of the current status
(including a transition back to `new`). -/
theorem update_lead_status_unguarded :
    (∀ (db : Db) (lid : Nat) (st : LeadStatus) (l2 : Lead),
      (update_lead_status db lid st).1 = some l2 → l2.status = st) ∧
    (∀ (db : Db) (lid : Nat) (st : LeadStatus) (l2 : Lead) (db2 : Db),
      update_lead_status_endpoint db lid st = Except.ok (l2, db2) →
        l2.status = st) := by
  have hcrud : ∀ (db : Db) (lid : Nat) (st : LeadStatus) (l2 : Lead),
      (update_lead_status db lid st).1 = some l2 → l2.status = st := by
    intro db lid st l2 h
    unfold update_lead_status at h
    rcases hg : get_lead_by_id db lid with _ | l <;> simp only [hg] at h
    · simp at h
    · simp at h
      rw [← h]
  refine ⟨hcrud, ?_⟩
  intro db lid st l2 db2 h
  unfold update_lead_status_endpoint at h
  rcases hg : get_lead_by_id db lid with _ | l <;> simp only [hg] at h
  · simp at h
  rcases hu : update_lead_status db lid st with ⟨r, db3⟩
  rcases r with _ | l3 <;> rw [hu] at h <;> simp at h
  exact h.1 ▸ hcrud db lid st l3 (by rw [hu])

/-- Witness for C6's amended theorem at a concrete input. -/
theorem update_lead_status_unguarded_witness :
    ({ leadRespondedEx with status := LeadStatus.new } : Lead).status =
      LeadStatus.new ∧
    ({ leadRespondedEx with status := LeadStatus.converted } : Lead).status =
      LeadStatus.converted :=
  ⟨update_lead_status_unguarded.1 dbRespondedEx 1 LeadStatus.new
      { leadRespondedEx with status := LeadStatus.new } rfl,
   update_lead_status_unguarded.2 dbRespondedEx 1 LeadStatus.converted
      { leadRespondedEx with status := LeadStatus.converted }
      (update_lead_status dbRespondedEx 1 LeadStatus.converted).2 rfl⟩

/-- C5: an available slot books successfully exactly once — the first
request returns the slot transitioned to `booked`; a second booking
request for the same slot is rejected with the HTTP 409
slot-unavailable error and produces no new database state, so the
slot's booked state is unchanged. -/
theorem book_available_slot_once_then_conflict (db : Db) (sid : Nat)
    (req req2 : BookSlotRequest) (slot : Slot)
    (hs : get_slot_by_id db sid = some slot)
    (hav : slot.status = SlotStatus.available)
    (hl : (get_lead_by_id db req.lead_id).isSome) :
    ∃ (booked : Slot) (db1 : Db),
      book_an_appointment_slot db sid req = Except.ok (booked, db1) ∧
      booked.status = SlotStatus.booked ∧
      get_slot_by_id db1 sid = some booked ∧
      book_an_appointment_slot db1 sid req2 =
        Except.error ⟨409, detailSlotUnavailable⟩ := by
  obtain ⟨l, hleq⟩ := Option.isSome_iff_exists.mp hl
  have hsid : slot.id = sid := by
    have hp := List.find?_some hs
    simpa using hp
  set booked :=
    book_slot slot req.lead_id req.reason_for_visit req.booked_by_method
    with hbooked
  have hbid : booked.id = sid := hsid
  have hfound : (db.slots.find? (fun x => x.id == sid)).isSome := by
    rw [show db.slots.find? (fun x => x.id == sid) = some slot from hs]
    rfl
  have hget : get_slot_by_id (commitSlot db booked) sid = some booked :=
    find?_map_commit db.slots sid booked hbid hfound
  refine ⟨booked, commitSlot db booked, ?_, rfl, hget, ?_⟩
  · unfold book_an_appointment_slot
    rw [hs, hleq]
    simp [hav]
  · unfold book_an_appointment_slot
    rw [hget]
    simp [hbooked, book_slot]

/-- A lead available for booking in the witness database. -/
def leadNewEx : Lead :=
  { id := 2
    lead_id_num := 2
    first_name := some keyDay
    last_name := none
    email := keyQuery
    phone_number := none
    inquiry_notes := none
    inquiry_date := 100
    status := .new
    nurture_attempts := 0
    ai_summary := none
    created_at := 100
    updated_at := 100 }

/-- A concrete available slot. -/
def slotAvailableEx : Slot :=
  { id := 3
    start_time := 600
    end_time := 630
    status := .available
    lead_id := none
    reason_for_visit := none
    booked_by_method := none }

/-- A concrete cancelled slot. -/
def slotCancelledEx : Slot :=
  { id := 7
    start_time := 540
    end_time := 570
    status := .cancelled
    lead_id := none
    reason_for_visit := none
    booked_by_method := none }

/-- Witness database: one bookable lead, one available and one cancelled
slot. -/
def dbSlotsEx : Db :=
  { leads := [leadNewEx], slots := [slotAvailableEx, slotCancelledEx] }

/-- A concrete booking request. -/
def bookReqEx : BookSlotRequest :=
  { lead_id := 2, reason_for_visit := keyReason, booked_by_method := keyQuery }

/-- Witness for C5 at a concrete database. -/
theorem book_available_slot_once_then_conflict_witness :
    ∃ (booked : Slot) (db1 : Db),
      book_an_appointment_slot dbSlotsEx 3 bookReqEx =
        Except.ok (booked, db1) ∧
      booked.status = SlotStatus.booked ∧
      get_slot_by_id db1 3 = some booked ∧
      book_an_appointment_slot db1 3 bookReqEx =
        Except.error ⟨409, detailSlotUnavailable⟩ :=
  book_available_slot_once_then_conflict dbSlotsEx 3 bookReqEx bookReqEx
    slotAvailableEx rfl rfl rfl

/-- C10: the crud-level `book_slot` enforces no status guard — whatever
the slot's current status, it unconditionally sets `booked` and
overwrites `lead_id`, `reason_for_visit` and `booked_by_method`; the
available-status check lives only in the callers: the API endpoint
rejects non-available slots with 409, and the natural-language slot
query only ever returns slots whose status is `available`. -/
theorem book_slot_unconditional_callers_guard :
    (∀ (slot : Slot) (lid : Nat) (reason method : String),
      (book_slot slot lid reason method).status = SlotStatus.booked ∧
      (book_slot slot lid reason method).lead_id = some lid ∧
      (book_slot slot lid reason method).reason_for_visit = some reason ∧
      (book_slot slot lid reason method).booked_by_method = some method) ∧
    (∀ (db : Db) (sid : Nat) (req : BookSlotRequest) (slot : Slot),
      get_slot_by_id db sid = some slot →
      slot.status ≠ SlotStatus.available →
      book_an_appointment_slot db sid req =
        Except.error ⟨409, detailSlotUnavailable⟩) ∧
    (∀ (db : Db) (target : Option Int) (s : Slot),
      find_available_slot_by_natural_language db target = some s →
      s.status = SlotStatus.available) := by
  refine ⟨fun _ _ _ _ => ⟨rfl, rfl, rfl, rfl⟩, ?_, ?_⟩
  · intro db sid req slot hs hna
    unfold book_an_appointment_slot
    rw [hs]
    simp [hna]
  · intro db target s h
    rcases target with _ | t
    · simp [find_available_slot_by_natural_language] at h
    · simp only [find_available_slot_by_natural_language] at h
      have hp := List.find?_some h
      simp only [Bool.and_eq_true, beq_iff_eq, decide_eq_true_eq] at hp
      exact hp.1.1

/-- Witness for C10: booking a cancelled slot still sets `booked`, the
endpoint answers 409 on that cancelled slot, and the natural-language
query applied to the witness database returns an available slot. -/
theorem book_slot_unconditional_callers_guard_witness :
    (book_slot slotCancelledEx 2 keyReason keyQuery).status =
      SlotStatus.booked ∧
    book_an_appointment_slot dbSlotsEx 7 bookReqEx =
      Except.error ⟨409, detailSlotUnavailable⟩ ∧
    slotAvailableEx.status = SlotStatus.available :=
  ⟨(book_slot_unconditional_callers_guard.1 slotCancelledEx 2 keyReason
      keyQuery).1,
   book_slot_unconditional_callers_guard.2.1 dbSlotsEx 7 bookReqEx
      slotCancelledEx rfl (by simp [slotCancelledEx]),
   book_slot_unconditional_callers_guard.2.2 dbSlotsEx (some 600)
      slotAvailableEx rfl⟩

/-! ### The triage classifier (C8) -/

def catEmergency : String := "Emergency"
def catInsuranceQuery : String := "Insurance_Query"
def catSchedulingQuery : String := "Scheduling_Query"
def catServiceInquiry : String := "Service_Inquiry"
def catGeneralFollowUp : String := "General_Follow_Up"

/-- The closed category set of `TriageResult.category` in
`agents/triage_agent.py`. -/
inductive TriageCategory where
  | Emergency
  | Insurance_Query
  | Scheduling_Query
  | Service_Inquiry
  | General_Follow_Up
deriving DecidableEq

/-- Literal-string validation of the category field. -/
def categoryOfString (s : String) : Option TriageCategory :=
  if s = catEmergency then some .Emergency
  else if s = catInsuranceQuery then some .Insurance_Query
  else if s = catSchedulingQuery then some .Scheduling_Query
  else if s = catServiceInquiry then some .Service_Inquiry
  else if s = catGeneralFollowUp then some .General_Follow_Up
  else none

/-- Pydantic model `TriageResult` of `agents/triage_agent.py`. -/
structure TriageResult where
  category : TriageCategory
  summary : String
  is_emergency : Bool
  kb_search_query : Option String

/-- Pydantic validation `TriageResult(**result_json)`: `category`,
`summary` and `is_emergency` are required; `kb_search_query` defaults to
`None` when the key is absent. -/
def parseTriageResult (j : Json) : Except PyErr TriageResult :=
  match j with
  | .obj fields => do
    let cat ← match lookupJ fields keyCategory with
      | some (.str s) =>
        match categoryOfString s with
        | some c => Except.ok c
        | none => Except.error PyErr.validationError
      | _ => Except.error PyErr.validationError
    let summ ← parseStrReq (lookupJ fields keySummary)
    let em ← match lookupJ fields keyIsEmergency with
      | some (.jbool b) => Except.ok b
      | _ => Except.error PyErr.validationError
    let kq ← match lookupJ fields keyKbSearchQuery with
      | some v => parseStrOpt v
      | none => Except.ok none
    Except.ok ⟨cat, summ, em, kq⟩
  | _ => .error .validationError

/-- The `GraphState` dict of `agents/triage_agent.py`. -/
structure TriageState where
  lead_id : String
  first_name : String
  email : String
  inquiry_notes : String
  category : Option TriageCategory
  summary : Option String
  is_emergency : Option Bool
  kb_info : Option String
  kb_search_query : Option String
  email_subject : Option String
  email_body_plain : Option String
  email_body_html : Option String

/-- The `try` body of `triage_node`: LLM call (its outcome is the
argument) followed by `json.loads` and pydantic validation. -/
def triage_parse_attempt (llm : Except PyErr Json) :
    Except PyErr TriageResult := do
  let j ← llm
  parseTriageResult j

/-- `triage_node` of `agents/triage_agent.py`: on success the state takes
the four classified fields; on any exception the state is updated with
the defaults `is_emergency=False`, `category=General_Follow_Up`,
`summary=` the raw inquiry text, `kb_search_query=None`.  The function is
total: no error reaches the caller. -/
def triage_node (state : TriageState) (llm : Except PyErr Json) :
    TriageState :=
  match triage_parse_attempt llm with
  | .ok t =>
    { state with
        category := some t.category
        summary := some t.summary
        is_emergency := some t.is_emergency
        kb_search_query := t.kb_search_query }
  | .error _ =>
    { state with
        is_emergency := some false
        category := some .General_Follow_Up
        summary := some state.inquiry_notes
        kb_search_query := none }

/-- C8: every triage run whose LLM response fails to parse into a
`TriageResult` defaults to category `General_Follow_Up`,
`is_emergency = false` and summary equal to the raw inquiry text, and
`triage_node` is total, so no error surfaces to the caller. -/
theorem triage_node_parse_failure_defaults (state : TriageState)
    (llm : Except PyErr Json)
    (hfail : ∃ e, triage_parse_attempt llm = Except.error e) :
    triage_node state llm =
      { state with
          is_emergency := some false
          category := some TriageCategory.General_Follow_Up
          summary := some state.inquiry_notes
          kb_search_query := none } := by
  obtain ⟨e, he⟩ := hfail
  unfold triage_node
  rw [he]

def sampleInquiry : String := "teeth whitening cost"

/-- A concrete pre-triage state. -/
def triageStateEx : TriageState :=
  { lead_id := keyLeadId
    first_name := keyDay
    email := keyQuery
    inquiry_notes := sampleInquiry
    category := none
    summary := none
    is_emergency := none
    kb_info := none
    kb_search_query := none
    email_subject := none
    email_body_plain := none
    email_body_html := none }

/-- Witness for C8 at a concrete failing input (a JSON object missing
the required keys). -/
theorem triage_node_parse_failure_defaults_witness :
    triage_node triageStateEx (Except.ok (Json.obj [])) =
      { triageStateEx with
          is_emergency := some false
          category := some TriageCategory.General_Follow_Up
          summary := some triageStateEx.inquiry_notes
          kb_search_query := none } :=
  triage_node_parse_failure_defaults triageStateEx (Except.ok (Json.obj []))
    ⟨PyErr.validationError, rfl⟩

/-! ### The nurture scheduler (C4, C7) -/

/-- `CommTypeEnum` of `models.py`. -/
inductive CommTypeEnum where
  | email
  | sms
  | note
  | phone_call
deriving DecidableEq

/-- `CommDirectionEnum` of `models.py`. -/
inductive CommDirectionEnum where
  | outgoing_auto
  | outgoing_manual
  | incoming
deriving DecidableEq

/-- A `communications` row written by the scheduler (the free-text
content is vendor/LLM text and is not modelled). -/
structure Comm where
  lead_id : Nat
  ctype : CommTypeEnum
  direction : CommDirectionEnum
deriving DecidableEq

/-- Outcomes of the external effects one scheduler step can perform:
`gateN` is the evaluation of the source expression
`time_since_last_update > timedelta(day=N)` guarding attempt `N + 1`
(an `Except` because evaluating it can raise); `smsOk` and `emailOk` are
the boolean results of `send_sms` / `send_email` (both catch their own
exceptions and return a bool); `callData` is the return value of
`voice_utils.make_tool_based_vapi_call` (`None` on failure). -/
structure NurtureEnv where
  gate1 : Except PyErr Bool
  gate2 : Except PyErr Bool
  gate3 : Except PyErr Bool
  smsOk : Bool
  callData : Option String
  emailOk : Bool

/-- Evaluation of the source guard `time_since_last_update >
timedelta(day=N)` in `scheduler/nurture_engine.py`: `day` is not a valid
keyword argument of `datetime.timedelta` (the parameter is named
`days`), so the expression raises `TypeError` before any comparison
happens. -/
def timedeltaDayGuard : Except PyErr Bool := .error .typeError

/-- The environment of the scheduler as written in the source: all three
time-gates evaluate `timedelta(day=N)` and therefore raise. -/
def srcNurtureEnv (smsOk : Bool) (callData : Option String)
    (emailOk : Bool) : NurtureEnv :=
  { gate1 := timedeltaDayGuard
    gate2 := timedeltaDayGuard
    gate3 := timedeltaDayGuard
    smsOk := smsOk
    callData := callData
    emailOk := emailOk }

/-- A hypothetical environment in which the three elapsed-time
comparisons evaluate to `true` (what the comments in the source intend
with `days=N`); used to exhibit the branch logic that the `TypeError`
otherwise masks. -/
def gatesOpenEnv (smsOk : Bool) (callData : Option String)
    (emailOk : Bool) : NurtureEnv :=
  { gate1 := .ok true
    gate2 := .ok true
    gate3 := .ok true
    smsOk := smsOk
    callData := callData
    emailOk := emailOk }

/-- The per-lead body of `nurture_and_recall_job`: the `if/elif` chain on
`lead.nurture_attempts`.  Attempt 2 (SMS): only a truthy `send_sms`
increments the counter, logs and commits.  Attempt 3 (voice): when the
lead has a phone number, the counter is incremented and committed
whether or not the call succeeded — the `else` branch of `if call_data`
also increments.  Attempt 4 (email): only a truthy `send_email`
increments, logs and commits.  At 4 or more attempts the lead is
archived via `crud.update_lead_status`.  Python's `and` short-circuits,
so the raising gate is only evaluated when the attempt count matches. -/
def process_nurture_lead (env : NurtureEnv) (lead : Lead) :
    Except PyErr (Lead × List Comm) :=
  if lead.nurture_attempts = 1 then
    env.gate1.bind (fun g =>
      if g then
        if env.smsOk then
          .ok ({ lead with nurture_attempts := lead.nurture_attempts + 1 },
            [⟨lead.id, .sms, .outgoing_auto⟩])
        else .ok (lead, [])
      else .ok (lead, []))
  else if lead.nurture_attempts = 2 then
    env.gate2.bind (fun g =>
      if g then
        if lead.phone_number.isSome then
          match env.callData with
          | some _ =>
            .ok ({ lead with nurture_attempts := lead.nurture_attempts + 1 },
              [⟨lead.id, .phone_call, .outgoing_auto⟩])
          | none =>
            .ok ({ lead with nurture_attempts := lead.nurture_attempts + 1 },
              [])
        else .ok (lead, [])
      else .ok (lead, []))
  else if lead.nurture_attempts = 3 then
    env.gate3.bind (fun g =>
      if g then
        if env.emailOk then
          .ok ({ lead with nurture_attempts := lead.nurture_attempts + 1 },
            [⟨lead.id, .email, .outgoing_auto⟩])
        else .ok (lead, [])
      else .ok (lead, []))
  else if 4 ≤ lead.nurture_attempts then
    .ok ({ lead with status := .archived_no_response }, [])
  else
    .ok (lead, [])

/-- `nurture_and_recall_job` of `scheduler/nurture_engine.py`: iterate
over the leads whose status is `nurturing`, processing and committing
each in turn.  There is no per-lead `try/except`: a raised exception
propagates out of the `for` loop (through the `finally` that closes the
session), so the raising lead and every later lead are left
unprocessed, while the per-lead commits already made are kept.  Returns
the post-pass lead table, the communication rows written, and the
exception that aborted the pass, if any. -/
def nurture_and_recall_job (env : NurtureEnv) :
    List Lead → List Lead × List Comm × Option PyErr
  | [] => ([], [], none)
  | l :: ls =>
    if l.status = LeadStatus.nurturing then
      match process_nurture_lead env l with
      | .error e => (l :: ls, [], some e)
      | .ok (l2, cs) =>
        let rest := nurture_and_recall_job env ls
        (l2 :: rest.1, cs ++ rest.2.1, rest.2.2)
    else
      let rest := nurture_and_recall_job env ls
      (l :: rest.1, rest.2.1, rest.2.2)

/-- A nurturing lead with a phone number and a given attempt count. -/
def nurturingLeadEx (uid attempts : Nat) : Lead :=
  { id := uid
    lead_id_num := uid
    first_name := some keyDay
    last_name := none
    email := keyQuery
    phone_number := some keyTime
    inquiry_notes := some sampleInquiry
    inquiry_date := 100
    status := .nurturing
    nurture_attempts := attempts
    ai_summary := none
    created_at := 100
    updated_at := 100 }

/-- C4: the retry-on-failure nurture semantics is not what the code
implements.  At the failing input — any nurturing lead with attempt
count 1, 2 or 3 — the scheduler body raises `TypeError` from
`timedelta(day=N)` before reaching any send, whatever the vendor
outcomes would be, so no send (failed or successful) ever happens and no
counter is ever advanced.  Moreover the voice branch, exhibited under
the gates-open environment the source comments intend, increments the
counter and commits even when the call fails (`callData = None`),
contradicting the claim that a failed send leaves the counter
untouched. -/
theorem nurture_time_gate_raises_typeerror :
    ∀ (smsOk emailOk : Bool) (callData : Option String),
      process_nurture_lead (srcNurtureEnv smsOk callData emailOk)
          (nurturingLeadEx 21 1) = Except.error PyErr.typeError ∧
      process_nurture_lead (srcNurtureEnv smsOk callData emailOk)
          (nurturingLeadEx 21 2) = Except.error PyErr.typeError ∧
      process_nurture_lead (srcNurtureEnv smsOk callData emailOk)
          (nurturingLeadEx 21 3) = Except.error PyErr.typeError ∧
      process_nurture_lead (gatesOpenEnv smsOk none emailOk)
          (nurturingLeadEx 21 2) =
        Except.ok ({ nurturingLeadEx 21 2 with nurture_attempts := 3 },
          []) :=
  fun _ _ _ => ⟨rfl, rfl, rfl, rfl⟩

/-- C7 counterexample: a raised exception while processing one lead does
affect the other leads of the same pass.  With the source environment, a
nurturing lead at attempt count 1 raises `TypeError`; the lead at
attempt count 5 behind it is then left unarchived, although the same
pass run on it alone archives it. -/
theorem nurture_pass_abort_affects_later_leads :
    nurture_and_recall_job (srcNurtureEnv true (some keyQuery) true)
        [nurturingLeadEx 21 1, nurturingLeadEx 22 5] =
      ([nurturingLeadEx 21 1, nurturingLeadEx 22 5], [],
        some PyErr.typeError) ∧
    nurture_and_recall_job (srcNurtureEnv true (some keyQuery) true)
        [nurturingLeadEx 22 5] =
      ([{ nurturingLeadEx 22 5 with
            status := LeadStatus.archived_no_response }], [], none) :=
  ⟨rfl, rfl⟩

/-- C7 amended: leads are processed sequentially with per-lead commits,
and a failure signalled by a vendor return value affects only that lead;
but there is no per-lead exception handling, so a raised exception while
processing one lead aborts the pass: that lead and every later lead are
left unchanged (in the source this happens for every nurturing lead with
attempt count 1–3, via the `timedelta(day=N)` `TypeError`). -/
theorem nurture_exception_aborts_rest_of_pass (env : NurtureEnv)
    (a : Lead) (ls : List Lead) (e : PyErr)
    (ha : a.status = LeadStatus.nurturing)
    (he : process_nurture_lead env a = Except.error e) :
    nurture_and_recall_job env (a :: ls) = (a :: ls, [], some e) := by
  unfold nurture_and_recall_job
  rw [if_pos ha, he]

/-- Witness for C7's amended theorem at a concrete input. -/
theorem nurture_exception_aborts_rest_of_pass_witness :
    nurture_and_recall_job (srcNurtureEnv true none true)
        [nurturingLeadEx 21 1, nurturingLeadEx 22 5] =
      ([nurturingLeadEx 21 1, nurturingLeadEx 22 5], [],
        some PyErr.typeError) :=
  nurture_exception_aborts_rest_of_pass (srcNurtureEnv true none true)
    (nurturingLeadEx 21 1) [nurturingLeadEx 22 5] PyErr.typeError rfl rfl

end Mundos
